import Mathlib

/-!
Shallow embedding of the GO Feature Flag python provider core
(`request_flag_evaluation.py`, `metadata.py`) with theorems checking the
natural-language specification against it.
-/

/-- Runtime values that may appear in an evaluation-context attribute
mapping or as a caller-supplied default value (JSON-like dynamic values;
floating-point numbers are not needed by any property below). -/
inductive Value where
  | null
  | bool (b : Bool)
  | str (s : String)
  | int (n : Int)
  | object (fields : List (String × Value))
  | arr (items : List Value)

/-- First-match lookup in an attribute mapping, modelling python
`key in d` / `d.get(key)` on a dict (dict keys are unique, so an
association list with first-match lookup is a faithful model). -/
def lookupAttr : List (String × Value) → String → Option Value
  | [], _ => none
  | (k, v) :: rest, key => if k = key then some v else lookupAttr rest key

/-- The host framework's EvaluationContext shape as consumed by the code:
an optional targeting key and an attribute mapping. -/
structure EvaluationContext where
  targeting_key : Option String
  attributes : List (String × Value)

/-- GoFeatureFlagUser from `request_flag_evaluation.py`: a pydantic
BaseModel with `key: str`, `anonymous: Optional[bool]` and
`custom: Optional[dict]`. The `anonymous` field holds the value after
pydantic has validated the `Optional[bool]` annotation at construction
(see `validateOptionalBool` below for that validation). -/
structure GoFeatureFlagUser where
  key : String
  anonymous : Option Bool
  custom : List (String × Value)

/-- Lowercasing as python's `str.lower` performs it on these ASCII
spellings: each character of the string mapped to its lowercase form. -/
def lowerString (s : String) : String :=
  String.mk (s.data.map Char.toLower)

/-- Lowered string spellings pydantic's bool validator accepts as true. -/
def pydanticBoolTrueStrings : List String :=
  ["1", "on", "t", "true", "y", "yes"]

/-- Lowered string spellings pydantic's bool validator accepts as false. -/
def pydanticBoolFalseStrings : List String :=
  ["0", "off", "f", "false", "n", "no"]

/-- Validation pydantic performs for an `Optional[bool]` field at
BaseModel construction: None passes through as None; a bool passes
through unchanged; a string is lowercased and accepted when it is one of
the recognised true/false spellings; the integers 1 and 0 are accepted as
true and false; every other value (other integers, mappings, sequences)
fails with a ValidationError whose message is the bool error text. -/
def validateOptionalBool : Value → Except String (Option Bool)
  | .null => .ok none
  | .bool b => .ok (some b)
  | .str s =>
      if pydanticBoolTrueStrings.contains (lowerString s) then .ok (some true)
      else if pydanticBoolFalseStrings.contains (lowerString s) then .ok (some false)
      else .error "value could not be parsed to a boolean"
  | .int n =>
      if n = 1 then .ok (some true)
      else if n = 0 then .ok (some false)
      else .error "value could not be parsed to a boolean"
  | .object _ => .error "value could not be parsed to a boolean"
  | .arr _ => .error "value could not be parsed to a boolean"

/-- The raw value the function binds to its local `anonymous` before
constructing the user: `anonymous = True`, overridden by
`ctx.attributes.get("anonymous")` when `"anonymous" in ctx.attributes`. -/
def rawAnonymous (attrs : List (String × Value)) : Value :=
  match lookupAttr attrs "anonymous" with
  | some v => v
  | none => Value.bool true

/-- Errors `user_from_evaluation_context` can raise: the two declared
OpenFeature errors it raises explicitly, python's AttributeError
(carrying the missing attribute name) raised when the argument is a plain
dict such as the `{}` default parameter value, and pydantic's
ValidationError (carrying its message) raised by the GoFeatureFlagUser
construction when the anonymous value fails bool validation. -/
inductive EvalError where
  | invalidContext (msg : String)
  | targetingKeyMissing (msg : String)
  | attributeError (attr : String)
  | validationError (msg : String)

/-- Whether an error is one of the two declared context-mapping errors
(`InvalidContext`, `TargetingKeyMissing`) of the spec's taxonomy. -/
def EvalError.isInDeclaredTaxonomy : EvalError → Bool
  | .invalidContext _ => true
  | .targetingKeyMissing _ => true
  | .attributeError _ => false
  | .validationError _ => false

/-- Whether a call outcome is a returned user rather than an error. -/
def returnsUser : Except EvalError GoFeatureFlagUser → Bool
  | .ok _ => true
  | .error _ => false

/-- The possible shapes of the argument actually passed to
`user_from_evaluation_context`: python `None`, the function's default
parameter value `{}` (a plain dict, which has no `targeting_key`
attribute), or a genuine EvaluationContext. -/
inductive CtxArg where
  | pyNone
  | emptyDict
  | ctx (c : EvaluationContext)

/-- Embedding of `user_from_evaluation_context` from
`request_flag_evaluation.py`, traced statement by statement:
`if ctx is None: raise InvalidContextError(...)`;
then `if ctx.targeting_key is None or len(ctx.targeting_key) == 0:
raise TargetingKeyMissingError(...)` (on the `{}` default the attribute
access itself raises AttributeError);
then `anonymous = True`, overridden by `ctx.attributes.get("anonymous")`
when `"anonymous" in ctx.attributes` (the local binding is
`rawAnonymous`);
finally `GoFeatureFlagUser(key=ctx.targeting_key, anonymous=anonymous,
custom=ctx.attributes)`, where pydantic validates the anonymous value
against `Optional[bool]` (raising ValidationError on failure, see
`validateOptionalBool`). -/
def user_from_evaluation_context : CtxArg → Except EvalError GoFeatureFlagUser
  | .pyNone =>
      .error (.invalidContext "GO Feature Flag need an Evaluation context to work.")
  | .emptyDict => .error (.attributeError "targeting_key")
  | .ctx c =>
      match c.targeting_key with
      | none =>
          .error (.targetingKeyMissing
            "targetingKey field MUST be set in your EvaluationContext")
      | some k =>
          if k.length = 0 then
            .error (.targetingKeyMissing
              "targetingKey field MUST be set in your EvaluationContext")
          else
            match validateOptionalBool (rawAnonymous c.attributes) with
            | .error m => .error (.validationError m)
            | .ok a => .ok { key := k, anonymous := a, custom := c.attributes }

/-- The call `user_from_evaluation_context()` with the argument omitted:
python substitutes the default parameter value `{}`. -/
def user_from_evaluation_context_noargs : Except EvalError GoFeatureFlagUser :=
  user_from_evaluation_context CtxArg.emptyDict

/-- Stateful rendering of `user_from_evaluation_context`: the python
function body contains no assignment to `ctx` or to any of its fields and
reads or writes no global state (pydantic's field validation at the
GoFeatureFlagUser construction mutates nothing either), so each statement
threads the ambient state `s` and the context argument through unchanged;
the returned triple is (result, context after the call, state after the
call). -/
def user_from_evaluation_context_run {σ : Type} (ctxArg : CtxArg) (s : σ) :
    Except EvalError GoFeatureFlagUser × CtxArg × σ :=
  match ctxArg with
  | .pyNone =>
      (.error (.invalidContext "GO Feature Flag need an Evaluation context to work."),
        ctxArg, s)
  | .emptyDict => (.error (.attributeError "targeting_key"), ctxArg, s)
  | .ctx c =>
      match c.targeting_key with
      | none =>
          (.error (.targetingKeyMissing
            "targetingKey field MUST be set in your EvaluationContext"), ctxArg, s)
      | some k =>
          if k.length = 0 then
            (.error (.targetingKeyMissing
              "targetingKey field MUST be set in your EvaluationContext"), ctxArg, s)
          else
            match validateOptionalBool (rawAnonymous c.attributes) with
            | .error m => (.error (.validationError m), ctxArg, s)
            | .ok a =>
                (.ok { key := k, anonymous := a, custom := c.attributes },
                  ctxArg, s)

/-- RequestFlagEvaluation from `request_flag_evaluation.py`: a record
pairing the mapped user with the caller's default value (`Any`). -/
structure RequestFlagEvaluation where
  user : GoFeatureFlagUser
  defaultValue : Value

/-- GoFeatureFlagMetadata from `metadata.py`: a dataclass whose `name`
field defaults to the string "GO Feature Flag". -/
structure GoFeatureFlagMetadata where
  name : String := "GO Feature Flag"

/-- Modelled from the spec: the Provider Facade (`provider.py`) is not
among the given source files; per the spec it exposes static metadata
whose name is "GO Feature Flag" and holds its validated options (the
endpoint URL). -/
structure GoFeatureFlagProvider where
  endpoint : String

/-- Modelled from the spec: the facade's `get_metadata` returns the
static `GoFeatureFlagMetadata`, whose `name` defaults to
"GO Feature Flag" in `metadata.py`. -/
def GoFeatureFlagProvider.get_metadata (_p : GoFeatureFlagProvider) :
    GoFeatureFlagMetadata := {}

/-- Error codes of the spec's taxonomy surfaced in an EvaluationResult,
plus INVALID_CONTEXT, the code the host framework attaches to an
InvalidContext error. -/
inductive ErrorCode where
  | TARGETING_KEY_MISSING
  | FLAG_NOT_FOUND
  | TYPE_MISMATCH
  | GENERAL
  | INVALID_CONTEXT

/-- The typed resolution entry points of the facade: boolean, string,
integer, float and structured-value accessors. -/
inductive TypeTag where
  | boolT
  | stringT
  | integerT
  | floatT
  | objectT

/-- EvaluationResult returned to the caller, per the spec's data model:
flag key, value, reason (open string enumeration), variant, error code
and error message. -/
structure EvaluationResult where
  flag_key : String
  value : Value
  reason : String
  variant : Option String
  error_code : Option ErrorCode
  error_message : Option String

/-- Modelled from the spec: the Provider Facade's typed resolution entry
points (`provider.py` is not among the given source files). Each entry
point maps the context, builds the request, and hands it to the remote
resolve-and-interpret stage (abstracted as `remote`); per the spec's
propagation policy, a context-mapping error is never raised to the caller
but converted into a terminal EvaluationResult carrying the caller's
default value, `reason = ERROR` and the error's code. -/
def resolve_details (tag : TypeTag) (flag_key : String) (default_value : Value)
    (ctxArg : CtxArg)
    (remote : TypeTag → RequestFlagEvaluation → EvaluationResult) :
    EvaluationResult :=
  match user_from_evaluation_context ctxArg with
  | .error (.targetingKeyMissing m) =>
      { flag_key := flag_key, value := default_value, reason := "ERROR",
        variant := none, error_code := some .TARGETING_KEY_MISSING,
        error_message := some m }
  | .error (.invalidContext m) =>
      { flag_key := flag_key, value := default_value, reason := "ERROR",
        variant := none, error_code := some .INVALID_CONTEXT,
        error_message := some m }
  | .error (.attributeError a) =>
      { flag_key := flag_key, value := default_value, reason := "ERROR",
        variant := none, error_code := some .GENERAL,
        error_message := some a }
  | .error (.validationError m) =>
      { flag_key := flag_key, value := default_value, reason := "ERROR",
        variant := none, error_code := some .GENERAL,
        error_message := some m }
  | .ok user =>
      remote tag { user := user, defaultValue := default_value }

/-- A concrete remote resolve-and-interpret stage used to instantiate
theorems at closed inputs: it answers every request with a targeting
match carrying the request's default value. -/
def matchRemote : TypeTag → RequestFlagEvaluation → EvaluationResult :=
  fun _ r =>
    { flag_key := "string_key", value := r.defaultValue,
      reason := "TARGETING_MATCH", variant := some "True",
      error_code := none, error_message := none }

/-! Helper lemmas shared by several theorems below. -/

/-- A string of length zero is the empty string (python `len(k) == 0`). -/
theorem string_eq_empty_of_length_zero {s : String} (h : s.length = 0) : s = "" := by
  cases s with
  | mk data =>
    cases data with
    | nil => rfl
    | cons a l => simp [String.length] at h

/-- With a missing or empty targeting key, the context mapper raises
TargetingKeyMissing. -/
theorem user_ctx_missing_key (c : EvaluationContext)
    (h : c.targeting_key = none ∨ c.targeting_key = some "") :
    user_from_evaluation_context (.ctx c) =
      .error (.targetingKeyMissing
        "targetingKey field MUST be set in your EvaluationContext") := by
  rcases h with h | h <;> simp [user_from_evaluation_context, h]

/-- With a non-empty targeting key and an anonymous value that passes
bool validation, the context mapper returns the user built from the key,
the validated anonymous value and the full attribute mapping. -/
theorem user_ctx_ok (c : EvaluationContext) (k : String) (a : Option Bool)
    (hk : c.targeting_key = some k) (hne : k ≠ "")
    (ha : validateOptionalBool (rawAnonymous c.attributes) = .ok a) :
    user_from_evaluation_context (.ctx c) =
      .ok { key := k, anonymous := a, custom := c.attributes } := by
  have hlen : ¬ k.length = 0 := fun h => hne (string_eq_empty_of_length_zero h)
  simp [user_from_evaluation_context, hk, if_neg hlen, ha]

/-- The stateful rendering of the context mapper computes the pure result
and leaves both the context argument and the ambient state untouched. -/
theorem user_ctx_run_spec {σ : Type} (a : CtxArg) (s : σ) :
    user_from_evaluation_context_run a s = (user_from_evaluation_context a, a, s) := by
  cases a with
  | pyNone => rfl
  | emptyDict => rfl
  | ctx c =>
    cases h : c.targeting_key with
    | none =>
        simp [user_from_evaluation_context_run, user_from_evaluation_context, h]
    | some k =>
        by_cases hl : k.length = 0
        · simp [user_from_evaluation_context_run, user_from_evaluation_context, h, hl]
        · cases hv : validateOptionalBool (rawAnonymous c.attributes) <;>
            simp [user_from_evaluation_context_run, user_from_evaluation_context,
              h, hl, hv]

/-! The claim theorems. -/

/-- C1 counterexample: the claim fails as stated. At the concrete context
with targeting key "uid-3" and attribute mapping sending "anonymous" to
the string "john", the call raises pydantic's ValidationError and returns
no user at all; and at the context sending "anonymous" to the string
"yes", the call returns a user whose anonymous field is the coerced
boolean true, not that attribute's value (the string "yes"). -/
theorem C1_user_fields_counterexample :
    (⟨some "uid-3", [("anonymous", Value.str "john")]⟩ :
        EvaluationContext).targeting_key = some "uid-3"
    ∧ user_from_evaluation_context
        (.ctx ⟨some "uid-3", [("anonymous", Value.str "john")]⟩) =
      .error (.validationError "value could not be parsed to a boolean")
    ∧ returnsUser (user_from_evaluation_context
        (.ctx ⟨some "uid-3", [("anonymous", Value.str "john")]⟩)) = false
    ∧ user_from_evaluation_context
        (.ctx ⟨some "uid-4", [("anonymous", Value.str "yes")]⟩) =
      .ok { key := "uid-4", anonymous := some true,
            custom := [("anonymous", Value.str "yes")] } :=
  ⟨rfl, rfl, rfl, rfl⟩

/-- C1 (amended): for every EvaluationContext with a non-empty targeting
key whose attribute mapping either lacks the key "anonymous" or maps it
to null or to a boolean, `user_from_evaluation_context` returns a user
whose key equals the targeting key, whose anonymous field is true unless
the mapping contains "anonymous" (in which case it equals that
attribute's null-or-boolean value), and whose custom field is the full
attribute mapping exactly as supplied, with no filtering or key renaming;
for other "anonymous" values pydantic's Optional[bool] validation raises
or coerces, so the original claim fails there. -/
theorem C1_user_fields (c : EvaluationContext) (k : String)
    (hk : c.targeting_key = some k) (hne : k ≠ "")
    (hanon : lookupAttr c.attributes "anonymous" = none
      ∨ lookupAttr c.attributes "anonymous" = some Value.null
      ∨ ∃ b, lookupAttr c.attributes "anonymous" = some (Value.bool b)) :
    ∃ u, user_from_evaluation_context (.ctx c) = .ok u
      ∧ u.key = k
      ∧ ((lookupAttr c.attributes "anonymous" = none → u.anonymous = some true)
         ∧ (lookupAttr c.attributes "anonymous" = some Value.null →
            u.anonymous = none)
         ∧ ∀ b, lookupAttr c.attributes "anonymous" = some (Value.bool b) →
            u.anonymous = some b)
      ∧ u.custom = c.attributes := by
  rcases hanon with ha | ha | ⟨b, ha⟩
  · refine ⟨_, user_ctx_ok c k (some true) hk hne ?_, rfl, ⟨fun _ => rfl, ?_, ?_⟩, rfl⟩
    · simp [rawAnonymous, ha, validateOptionalBool]
    · intro h
      rw [ha] at h
      cases h
    · intro b h
      rw [ha] at h
      cases h
  · refine ⟨_, user_ctx_ok c k none hk hne ?_, rfl, ⟨?_, fun _ => rfl, ?_⟩, rfl⟩
    · simp [rawAnonymous, ha, validateOptionalBool]
    · intro h
      rw [ha] at h
      cases h
    · intro b h
      rw [ha] at h
      cases h
  · refine ⟨_, user_ctx_ok c k (some b) hk hne ?_, rfl, ⟨?_, ?_, ?_⟩, rfl⟩
    · simp [rawAnonymous, ha, validateOptionalBool]
    · intro h
      rw [ha] at h
      cases h
    · intro h
      rw [ha] at h
      cases h
    · intro b' h
      rw [ha] at h
      cases h
      rfl

/-- Witness for C1 at a concrete context whose mapping contains
"anonymous" mapped to false. -/
theorem C1_user_fields_witness :
    (⟨some "uid-1", [("email", Value.str "a@b.c"), ("anonymous", Value.bool false)]⟩ :
        EvaluationContext).targeting_key = some "uid-1"
    ∧ ("uid-1" : String) ≠ ""
    ∧ (lookupAttr [("email", Value.str "a@b.c"), ("anonymous", Value.bool false)]
          "anonymous" = none
       ∨ lookupAttr [("email", Value.str "a@b.c"), ("anonymous", Value.bool false)]
          "anonymous" = some Value.null
       ∨ ∃ b, lookupAttr [("email", Value.str "a@b.c"),
          ("anonymous", Value.bool false)] "anonymous" = some (Value.bool b))
    ∧ ∃ u, user_from_evaluation_context
          (.ctx ⟨some "uid-1",
            [("email", Value.str "a@b.c"), ("anonymous", Value.bool false)]⟩) = .ok u
        ∧ u.key = "uid-1"
        ∧ ((lookupAttr [("email", Value.str "a@b.c"), ("anonymous", Value.bool false)]
              "anonymous" = none → u.anonymous = some true)
           ∧ (lookupAttr [("email", Value.str "a@b.c"), ("anonymous", Value.bool false)]
              "anonymous" = some Value.null → u.anonymous = none)
           ∧ ∀ b, lookupAttr [("email", Value.str "a@b.c"),
              ("anonymous", Value.bool false)] "anonymous" = some (Value.bool b) →
              u.anonymous = some b)
        ∧ u.custom = [("email", Value.str "a@b.c"), ("anonymous", Value.bool false)] :=
  ⟨rfl, by decide, Or.inr (Or.inr ⟨false, rfl⟩),
    C1_user_fields ⟨some "uid-1",
      [("email", Value.str "a@b.c"), ("anonymous", Value.bool false)]⟩ "uid-1" rfl
      (by decide) (Or.inr (Or.inr ⟨false, rfl⟩))⟩

/-- C2: for every non-null EvaluationContext whose targeting key is
absent or the empty string, `user_from_evaluation_context` fails with the
TargetingKeyMissing error and returns no user. -/
theorem C2_targeting_key_missing (c : EvaluationContext)
    (h : c.targeting_key = none ∨ c.targeting_key = some "") :
    user_from_evaluation_context (.ctx c) =
      .error (.targetingKeyMissing
        "targetingKey field MUST be set in your EvaluationContext") :=
  user_ctx_missing_key c h

/-- Witness for C2 at a concrete context with no targeting key. -/
theorem C2_targeting_key_missing_witness :
    ((⟨none, []⟩ : EvaluationContext).targeting_key = none
       ∨ (⟨none, []⟩ : EvaluationContext).targeting_key = some "")
    ∧ user_from_evaluation_context (.ctx ⟨none, []⟩) =
        .error (.targetingKeyMissing
          "targetingKey field MUST be set in your EvaluationContext") :=
  ⟨Or.inl rfl, C2_targeting_key_missing ⟨none, []⟩ (Or.inl rfl)⟩

/-- C3: when the evaluation-context argument is null,
`user_from_evaluation_context` fails with the InvalidContext error and
returns no user. -/
theorem C3_invalid_context_on_null :
    user_from_evaluation_context .pyNone =
      .error (.invalidContext "GO Feature Flag need an Evaluation context to work.") :=
  rfl

/-- C4: (spec-modelled facade) every typed accessor converts a
context-mapping failure into a terminal EvaluationResult instead of a
fault: for every context with a missing or empty targeting key it returns
error code TARGETING_KEY_MISSING, reason ERROR and the caller's default
value, whatever the accessor's type and whatever the remote stage would
do. -/
theorem C4_accessor_missing_key_result (tag : TypeTag) (fk : String) (d : Value)
    (c : EvaluationContext)
    (remote : TypeTag → RequestFlagEvaluation → EvaluationResult)
    (h : c.targeting_key = none ∨ c.targeting_key = some "") :
    (resolve_details tag fk d (.ctx c) remote).error_code =
        some ErrorCode.TARGETING_KEY_MISSING
    ∧ (resolve_details tag fk d (.ctx c) remote).reason = "ERROR"
    ∧ (resolve_details tag fk d (.ctx c) remote).value = d := by
  have h2 := user_ctx_missing_key c h
  simp [resolve_details, h2]

/-- Witness for C4: the string accessor, a context without a targeting
key, and a remote stage that would have returned a targeting match. -/
theorem C4_accessor_missing_key_result_witness :
    ((⟨none, []⟩ : EvaluationContext).targeting_key = none
       ∨ (⟨none, []⟩ : EvaluationContext).targeting_key = some "")
    ∧ (resolve_details .stringT "string_key" (Value.str "empty") (.ctx ⟨none, []⟩)
          matchRemote).error_code = some ErrorCode.TARGETING_KEY_MISSING
    ∧ (resolve_details .stringT "string_key" (Value.str "empty") (.ctx ⟨none, []⟩)
          matchRemote).reason = "ERROR"
    ∧ (resolve_details .stringT "string_key" (Value.str "empty") (.ctx ⟨none, []⟩)
          matchRemote).value = Value.str "empty" :=
  ⟨Or.inl rfl,
    C4_accessor_missing_key_result .stringT "string_key" (Value.str "empty")
      ⟨none, []⟩ matchRemote (Or.inl rfl)⟩

/-- C5: `user_from_evaluation_context` is deterministic and side-effect
free: its result does not depend on any ambient state (even of a
different type), it agrees with the pure function, and the state after
the call is the state before it. -/
theorem C5_pure_deterministic {σ τ : Type} (s : σ) (t : τ) (a : CtxArg) :
    (user_from_evaluation_context_run a s).1 = (user_from_evaluation_context_run a t).1
    ∧ (user_from_evaluation_context_run a s).1 = user_from_evaluation_context a
    ∧ (user_from_evaluation_context_run a s).2.2 = s := by
  rw [user_ctx_run_spec, user_ctx_run_spec]
  exact ⟨rfl, rfl, rfl⟩

/-- C6: `user_from_evaluation_context` leaves its context argument
unchanged: after the call the context still has exactly the targeting key
and the attribute entries supplied by the caller. -/
theorem C6_context_unchanged {σ : Type} (s : σ) (c : EvaluationContext) :
    ∃ c', (user_from_evaluation_context_run (.ctx c) s).2.1 = CtxArg.ctx c'
      ∧ c'.targeting_key = c.targeting_key
      ∧ c'.attributes = c.attributes :=
  ⟨c, by rw [user_ctx_run_spec], rfl, rfl⟩

/-- C7: building a RequestFlagEvaluation from a user and a default value
always succeeds, with no further validation, and the resulting request
holds exactly that user and that default value. -/
theorem C7_request_build (u : GoFeatureFlagUser) (d : Value) :
    (RequestFlagEvaluation.mk u d).user = u
    ∧ (RequestFlagEvaluation.mk u d).defaultValue = d :=
  ⟨rfl, rfl⟩

/-- C8: every constructed provider's static metadata has name
"GO Feature Flag". -/
theorem C8_metadata_name (p : GoFeatureFlagProvider) :
    p.get_metadata.name = "GO Feature Flag" :=
  rfl

/-- C9: invoking `user_from_evaluation_context` with the argument omitted
substitutes the default parameter value, an empty dict rather than null,
so the InvalidContext check does not fire; the call fails with an
attribute-access error on `targeting_key`, which lies outside the
declared two-error taxonomy. -/
theorem C9_default_arg_attribute_error :
    user_from_evaluation_context_noargs =
        .error (.attributeError "targeting_key")
    ∧ EvalError.isInDeclaredTaxonomy (.attributeError "targeting_key") = false :=
  ⟨rfl, rfl⟩

/-- C10: with a non-empty targeting key, an "anonymous" attribute mapped
to null yields a user with anonymous = none (null in the Optional[bool]
field), not the default true; the default true applies exactly when the
key "anonymous" is absent from the attribute mapping. -/
theorem C10_anonymous_null_vs_absent (c : EvaluationContext) (k : String)
    (hk : c.targeting_key = some k) (hne : k ≠ "") :
    (lookupAttr c.attributes "anonymous" = some Value.null →
      ∃ u, user_from_evaluation_context (.ctx c) = .ok u ∧ u.anonymous = none)
    ∧ (lookupAttr c.attributes "anonymous" = none →
      ∃ u, user_from_evaluation_context (.ctx c) = .ok u
        ∧ u.anonymous = some true) := by
  constructor
  · intro ha
    refine ⟨_, user_ctx_ok c k none hk hne ?_, rfl⟩
    simp [rawAnonymous, ha, validateOptionalBool]
  · intro ha
    refine ⟨_, user_ctx_ok c k (some true) hk hne ?_, rfl⟩
    simp [rawAnonymous, ha, validateOptionalBool]

/-- Witness for C10 at a concrete context whose mapping sends "anonymous"
to null. -/
theorem C10_anonymous_null_vs_absent_witness :
    (⟨some "uid-2", [("anonymous", Value.null)]⟩ :
        EvaluationContext).targeting_key = some "uid-2"
    ∧ ("uid-2" : String) ≠ ""
    ∧ ((lookupAttr [("anonymous", Value.null)] "anonymous" = some Value.null →
          ∃ u, user_from_evaluation_context
              (.ctx ⟨some "uid-2", [("anonymous", Value.null)]⟩) = .ok u
            ∧ u.anonymous = none)
       ∧ (lookupAttr [("anonymous", Value.null)] "anonymous" = none →
          ∃ u, user_from_evaluation_context
              (.ctx ⟨some "uid-2", [("anonymous", Value.null)]⟩) = .ok u
            ∧ u.anonymous = some true)) :=
  ⟨rfl, by decide,
    C10_anonymous_null_vs_absent ⟨some "uid-2", [("anonymous", Value.null)]⟩ "uid-2"
      rfl (by decide)⟩
